import Mathlib

/-!
Shallow embedding of the QuickVibe application logic (src/streamlit_app.py)
and proofs about it.  Pure Python functions become Lean functions on
`String` / `List Char`; the Streamlit session dictionary becomes an explicit
`SessionState` record threaded through the operations; the two outbound
network calls (model listing, chat completion) are external effects, so each
stateful operation that performs one takes the observed outcome of that call
as an explicit argument.
-/

set_option maxRecDepth 4000

namespace QuickVibe

/-- Embeds the constant `MAX_CHAT_HISTORY = 50` (line 23 of the source). -/
def MAX_CHAT_HISTORY : Nat := 50

/-- Embeds the constant `MIN_API_KEY_LENGTH = 32` (line 24 of the source). -/
def MIN_API_KEY_LENGTH : Nat := 32

/-- Embeds the constant `MAX_TOKENS = 150` (line 25 of the source). -/
def MAX_TOKENS : Nat := 150

/-- Embeds the constant `DEFAULT_TEMPERATURE = 0.7` (line 26 of the source). -/
def DEFAULT_TEMPERATURE : Rat := 7 / 10

/-- The whitespace characters removed by the Python `str.strip()` calls in the
source (space, tab, newline, carriage return, vertical tab, form feed). -/
def pySpace (c : Char) : Bool :=
  c = ' ' || c = '\t' || c = '\n' || c = '\r' || c = '\x0b' || c = '\x0c'

/-- Python `str.strip()` on a character list: drop `pySpace` characters from
both ends. -/
def stripChars (l : List Char) : List Char :=
  ((l.dropWhile pySpace).reverse.dropWhile pySpace).reverse

/-- Python `str.strip()` on a `String`. -/
def pyStrip (s : String) : String := ⟨stripChars s.data⟩

/-- One character of the regex character class `[a-zA-Z0-9_-]` used by
`validate_api_key` (line 52 of the source). -/
def isKeyChar (c : Char) : Bool :=
  (('a' ≤ c && c ≤ 'z') || ('A' ≤ c && c ≤ 'Z') || ('0' ≤ c && c ≤ '9')
    || c = '_' || c = '-')

/-- The regex `re.match(r'^gsk_[a-zA-Z0-9_-]+$', k)` from `validate_api_key`
as a total Boolean function: the string must start with the four literal
characters `gsk_` followed by one or more characters of the class.  The
source applies this to the already stripped key, so the `$` anchor is plain
end-of-string there. -/
def matchesKeyPat : List Char → Bool
  | 'g' :: 's' :: 'k' :: '_' :: rest => !rest.isEmpty && rest.all isKeyChar
  | _ => false

/-- The argument of `validate_api_key`.  The Python function is called on
arbitrary values and begins with `not api_key or not isinstance(api_key, str)`;
`nonStr` stands for any non-string argument. -/
inductive ApiKeyInput
  | nonStr
  | str (s : String)

/-- Embeds `validate_api_key` (lines 33-55 of the source).  Checks, in order:
falsy or non-string input, then strips the key, then minimum length, then the
`gsk_` pattern.  Returns the `(is_valid, error_message)` pair. -/
def validate_api_key : ApiKeyInput → Bool × String
  | ApiKeyInput.nonStr => (false, "API key is required")
  | ApiKeyInput.str s =>
    if s = "" then (false, "API key is required")
    else
      let api_key := stripChars s.data
      if api_key.length < MIN_API_KEY_LENGTH then
        (false, "API key too short (minimum 32 characters)")
      else if !matchesKeyPat api_key then
        (false, "Invalid API key format (should start with \x27gsk_\x27)")
      else
        (true, "")

/-- Helper for the embedding of `re.sub(r'<[^>]*>', '', s)` in
`sanitize_input`.  Scans left to right.  First argument `none`: normal mode.
First argument `some buf`: we have passed a `<` that opened a candidate
span and `buf` holds (reversed) the characters seen since.  A `>` closes the
span and the whole match is dropped; the regex class `[^>]*` accepts every
other character.  If the input ends while a span is open, the `<` never
matched (no `>` occurs after it, so neither it nor anything after it can
start a match) and the scanned characters are kept verbatim, exactly as
`re.sub` keeps them. -/
def rmAux : Option (List Char) → List Char → List Char
  | none, [] => []
  | some buf, [] => '<' :: buf.reverse
  | none, c :: rest => if c = '<' then rmAux (some []) rest else c :: rmAux none rest
  | some buf, c :: rest =>
    if c = '>' then rmAux none rest else rmAux (some (c :: buf)) rest

/-- `re.sub(r'<[^>]*>', '', s)` from `sanitize_input` (line 74 of the
source). -/
def removeTagSpans (l : List Char) : List Char := rmAux none l

/-- Embeds `sanitize_input` (lines 57-76 of the source) on string input:
strip, truncate to 2000 characters, then remove `<[^>]*>` spans.  (The
non-string branch of the source returns the empty string and is not
represented: the embedding is typed.) -/
def sanitize_input (s : String) : String :=
  ⟨removeTagSpans ((stripChars s.data).take 2000)⟩

/-- Boolean test that `needle` is a prefix of `hay` (used to embed the Python
substring operator `in`). -/
def startsWithChars : List Char → List Char → Bool
  | [], _ => true
  | _ :: _, [] => false
  | a :: as, b :: bs => a = b && startsWithChars as bs

/-- Boolean test that `needle` occurs as a contiguous substring of `hay`:
the Python expression `needle in hay` on strings. -/
def hasSub (needle : List Char) : List Char → Bool
  | [] => startsWithChars needle []
  | c :: rest => startsWithChars needle (c :: rest) || hasSub needle rest

/-- The `excluded_keywords` list of `_is_chat_model` (lines 133-136 of the
source). -/
def excluded_keywords : List String :=
  ["tts", "whisper", "vision", "audio", "image", "speech",
   "scout", "maverick", "playai", "llama-guard", "guard"]

/-- The `included_keywords` list of `_is_chat_model` (line 138 of the
source). -/
def included_keywords : List String :=
  ["llama", "mixtral", "gemma"]

/-- Python `str.lower()` on the model identifier (ASCII case folding, which
covers every identifier the filter is applied to). -/
def lowerChars (s : String) : List Char := s.data.map Char.toLower

/-- Embeds `_is_chat_model` (lines 123-147 of the source): lowercase the
identifier, exclude it if any excluded keyword occurs in it, otherwise
include it iff some included keyword occurs in it. -/
def _is_chat_model (model_id : String) : Bool :=
  let model_lower := lowerChars model_id
  if excluded_keywords.any (fun k => hasSub k.data model_lower) then false
  else included_keywords.any (fun k => hasSub k.data model_lower)

/-- A model descriptor from the listing endpoint.  The source keeps the whole
`model_dump()` dictionary but only ever reads the `id` field, which is all the
embedding carries. -/
structure ModelDescriptor where
  id : String
deriving DecidableEq

/-- The value of `fetch_groq_models_for_quickvibe`: the Python
`Union[List[Dict[str, Any]], str]` second component. -/
inductive FetchResult
  | models (ms : List ModelDescriptor)
  | error (msg : String)
deriving DecidableEq

/-- Observed outcome of the one network call `client.models.list()` inside
`fetch_groq_models_for_quickvibe`: either a page whose `data` field holds the
listed descriptors (an absent or falsy `data` is the empty list), or a raised
exception with its message. -/
inductive ModelsListOutcome
  | page (data : List ModelDescriptor)
  | exn (msg : String)
deriving DecidableEq

/-- Embeds `fetch_groq_models_for_quickvibe` (lines 79-121 of the source):
validate the key (fail fast), then inspect the listing outcome: an exception
becomes a descriptive failure, an empty page fails, otherwise keep the
descriptors with a truthy `id` and filter them with `_is_chat_model`, failing
with guidance if nothing survives. -/
def fetch_groq_models_for_quickvibe (api_key : String) (out : ModelsListOutcome) :
    Bool × FetchResult :=
  let v := validate_api_key (ApiKeyInput.str api_key)
  if !v.1 then
    (false, FetchResult.error ("API key validation failed: " ++ v.2))
  else
    match out with
    | ModelsListOutcome.exn e =>
      (false, FetchResult.error ("Failed to fetch models: " ++ e))
    | ModelsListOutcome.page data =>
      if data.isEmpty then (false, FetchResult.error "No models returned from API")
      else
        let models_list := data.filter (fun m => m.id ≠ "")
        let chat_models_list := models_list.filter (fun m => m.id ≠ "" && _is_chat_model m.id)
        if chat_models_list.isEmpty then
          (false, FetchResult.error
            "No suitable chat models found. QuickVibe needs models like Llama, Mixtral, or Gemma.")
        else (true, FetchResult.models chat_models_list)

/-- The `role` field of a chat-history entry. -/
inductive Role
  | user
  | assistant
deriving DecidableEq

/-- One entry of `st.session_state.chat_history`: the source uses a dict with
keys `role` and `content`, plus `model_used` on assistant entries and
`error: True` on failed assistant entries. -/
structure TranscriptEntry where
  role : Role
  content : String
  model_used : Option String
  error : Bool
deriving DecidableEq

/-- One entry of `st.session_state.error_log`, as appended by
`log_quickvibe_error`: `{'timestamp': time.time(), 'message': error_msg}`.
The clock value is threaded in as a natural number. -/
structure ErrorLogEntry where
  timestamp : Nat
  message : String
deriving DecidableEq

/-- The Streamlit session dictionary, restricted to the keys the embedded
logic reads and writes (the defaults of `initialize_quickvibe_session_state`
plus `quickvibe_response_vibe`, initialized at line 29-30 of the source). -/
structure SessionState where
  api_key : String
  api_validated : Bool
  quickvibe_chat_models : List String
  current_model_index : Nat
  chat_history : List TranscriptEntry
  error_log : List ErrorLogEntry
  quickvibe_response_vibe : String
deriving DecidableEq

/-- Embeds `log_quickvibe_error` (lines 193-211 of the source): append a
timestamped entry to `error_log`; if the log then holds more than 100 entries,
keep only the last 50. -/
def log_quickvibe_error (now : Nat) (error_msg : String) (st : SessionState) :
    SessionState :=
  let log := st.error_log ++ [⟨now, error_msg⟩]
  let log := if log.length > 100 then log.drop (log.length - 50) else log
  { st with error_log := log }

/-- Embeds `get_next_quickvibe_model` (lines 227-250 of the source): on an
empty model list return `None`; otherwise return the identifier at the cursor
and advance the cursor by one modulo the list length.  An out-of-range cursor
makes the Python indexing raise `IndexError`, which the source catches by
resetting the cursor to 0 and returning `None`. -/
def get_next_quickvibe_model (st : SessionState) : Option String × SessionState :=
  if st.quickvibe_chat_models = [] then (none, st)
  else if h : st.current_model_index < st.quickvibe_chat_models.length then
    (some (st.quickvibe_chat_models.get ⟨st.current_model_index, h⟩),
     { st with current_model_index :=
        (st.current_model_index + 1) % st.quickvibe_chat_models.length })
  else
    (none, { st with current_model_index := 0 })

/-- Embeds `get_vibe_instruction` (lines 253-271 of the source): the fixed
six-entry dictionary with `dict.get` falling back to the Witty instruction. -/
def get_vibe_instruction (vibe : String) : String :=
  if vibe = "Witty 😏" then "Be clever, playful, and drop some wordplay or puns."
  else if vibe = "Savage 🔥" then "Be bold, a little ruthless, and don\x27t hold back."
  else if vibe = "Supportive 🤗" then "Be kind, encouraging, and uplifting."
  else if vibe = "Dry 🧂" then "Be deadpan, sarcastic, and a little salty."
  else if vibe = "Flirty 😘" then "Be charming, a little cheeky, and playful."
  else if vibe = "Chill 😎" then "Be relaxed, casual, and super laid-back."
  else "Be clever, playful, and drop some wordplay or puns."

/-- Embeds `create_system_prompt` (lines 273-289 of the source): the fixed
template with the vibe instruction interpolated at the end. -/
def create_system_prompt (vibe_instruction : String) : String :=
  "You are QuickVibe AI, a super chill and funny AI that helps craft epic text message responses. "
    ++ "You talk like a zoomer or gen alpha kid on the internet - use slang, keep it short, be a bit edgy, "
    ++ "and use emojis. Make the user sound cool and witty. The user will give you a situation or a text "
    ++ "they received. Give them a few fire response options. Keep it brief, like a text. No cringe, only Ws. "
    ++ "⚡️😎💯\nVibe: " ++ vibe_instruction

/-- One element of `completion.choices`; `content` is the possibly missing
`choices[i].message.content`. -/
structure Choice where
  content : Option String
deriving DecidableEq

/-- Observed outcome of the one network call
`client.chat.completions.create(...)` inside `send_quickvibe_message`: a
completion with its list of choices, or a raised exception with its
message. -/
inductive ApiOutcome
  | ok (choices : List Choice)
  | exn (message : String)
deriving DecidableEq

/-- The Python truthiness test
`completion.choices and completion.choices[0].message.content` is false:
no choices, or the first content missing or empty. -/
def emptyReply (choices : List Choice) : Bool :=
  match choices.head? with
  | none => true
  | some c =>
    match c.content with
    | none => true
    | some s => s = ""

/-- Embeds `send_quickvibe_message` (lines 291-352 of the source).  The
validation checks happen before the network call; the composed prompt and the
clamped temperature are part of the outbound request, which `outcome` stands
for.  An empty or missing reply and a raised exception each append one entry
through `log_quickvibe_error` and return a tagged failure value; nothing
escapes as an exception. -/
def send_quickvibe_message (st : SessionState) (now : Nat) (outcome : ApiOutcome)
    (model user_message : String) (temperature : Rat) :
    (Bool × String) × SessionState :=
  if model = "" || user_message = "" then
    ((false, "Model and message are required."), st)
  else if st.api_key = "" then
    ((false, "No API key configured. Please add your API key in the sidebar."), st)
  else
    let clean_message := sanitize_input user_message
    if clean_message = "" then
      ((false, "Invalid or empty message after sanitization."), st)
    else
      let _temperature := max (0 : Rat) (min 2 temperature)
      let _system_prompt :=
        create_system_prompt (get_vibe_instruction st.quickvibe_response_vibe)
      match outcome with
      | ApiOutcome.ok choices =>
        let empty_fail :=
          let error_msg := "No response content generated"
          ((false, "💀 Yikes, got empty response: " ++ error_msg),
           log_quickvibe_error now error_msg st)
        match choices.head? with
        | some c =>
          match c.content with
          | some response_content =>
            if response_content = "" then empty_fail
            else ((true, response_content), st)
          | none => empty_fail
        | none => empty_fail
      | ApiOutcome.exn e =>
        let error_msg := "QuickVibe chat failed with model " ++ model ++ ": " ++ e
        ((false, "💀 Yikes, server\x27s trippin\x27: " ++ e),
         log_quickvibe_error now error_msg st)

/-- Embeds `_auto_validate_api_key` (lines 175-191 of the source): on a
successful fetch whose payload is the model list, store the identifiers, mark
the key validated and reset the cursor; otherwise mark the key not
validated.  It never touches `error_log` or `chat_history`. -/
def _auto_validate_api_key (st : SessionState) (lout : ModelsListOutcome) :
    SessionState :=
  match fetch_groq_models_for_quickvibe st.api_key lout with
  | (true, FetchResult.models ms) =>
    { st with quickvibe_chat_models := ms.map (fun m => m.id),
              api_validated := true,
              current_model_index := 0 }
  | _ => { st with api_validated := false }

/-- Embeds `initialize_quickvibe_session_state` (lines 150-173 of the
source).  The defaults loop only inserts missing keys; the embedding
represents the session dictionary as a record, on which every key is present,
so that loop is the identity here.  Then the chat history is truncated to its
last `MAX_CHAT_HISTORY` entries if it is longer, and the key is
auto-validated when present and not yet validated. -/
def init_quickvibe_session_state (st : SessionState) (lout : ModelsListOutcome) :
    SessionState :=
  let st1 :=
    if st.chat_history.length > MAX_CHAT_HISTORY then
      { st with chat_history :=
          st.chat_history.drop (st.chat_history.length - MAX_CHAT_HISTORY) }
    else st
  if st1.api_key ≠ "" && !st1.api_validated then _auto_validate_api_key st1 lout
  else st1

/-- Embeds the `if user_input:` tail of `quickvibe_main` (lines 693-712 of
the source), the one user-action step that appends transcript entries: append
the user entry, pick a model with the rotator (on failure the step ends), call
the dispatcher, and append the assistant entry, flagged with `error: True`
when the dispatch failed. -/
def quickvibe_handle_user_input (st : SessionState) (now : Nat)
    (user_input : String) (outcome : ApiOutcome) : SessionState :=
  if user_input = "" then st
  else
    let st1 := { st with chat_history :=
        st.chat_history ++ [⟨Role.user, user_input, none, false⟩] }
    match get_next_quickvibe_model st1 with
    | (none, st2) => st2
    | (some current_model, st2) =>
      let r := send_quickvibe_message st2 now outcome current_model user_input
        DEFAULT_TEMPERATURE
      if r.1.1 then
        { r.2 with chat_history :=
            r.2.chat_history ++ [⟨Role.assistant, r.1.2, some current_model, false⟩] }
      else
        { r.2 with chat_history :=
            r.2.chat_history ++ [⟨Role.assistant, r.1.2, some current_model, true⟩] }

/-- Repeated rotation: perform `n` successive calls of
`get_next_quickvibe_model`, collecting the returned selections in order and
threading the session state. -/
def rotateN : SessionState → Nat → List (Option String) × SessionState
  | st, 0 => ([], st)
  | st, n + 1 =>
    let r := get_next_quickvibe_model st
    let rest := rotateN r.2 n
    (r.1 :: rest.1, rest.2)

/-- A character list is `clean` when no occurrence of `<` in it is followed
(anywhere later) by a `>`; equivalently, the regex `<[^>]*>` has no match in
it.  This is the shape of every `removeTagSpans` output. -/
def clean : List Char → Bool
  | [] => true
  | c :: rest => (if c = '<' then !(decide ('>' ∈ rest)) else true) && clean rest

/-! ### Lemmas about the markup-removal pass -/

/-- Every `rmAux` output is a sublist of what remains to be scanned, preceded
in buffering mode by the pending `<` and buffer. -/
theorem rmAux_sublist : ∀ l : List Char,
    List.Sublist (rmAux none l) l ∧
    ∀ buf : List Char, List.Sublist (rmAux (some buf) l) ('<' :: buf.reverse ++ l)
  | [] => by
    refine ⟨by simp [rmAux], fun buf => ?_⟩
    simp [rmAux]
  | c :: rest => by
    obtain ⟨ih1, ih2⟩ := rmAux_sublist rest
    constructor
    · by_cases hc : c = '<'
      · subst hc
        simpa [rmAux] using ih2 []
      · simpa [rmAux, hc] using ih1.cons₂ c
    · intro buf
      by_cases hc : c = '>'
      · subst hc
        have h1 : List.Sublist (rmAux none rest) ('>' :: rest) := ih1.cons '>'
        simpa [rmAux] using h1.trans (List.sublist_append_right ('<' :: buf.reverse) _)
      · have h2 := ih2 (c :: buf)
        simp only [List.reverse_cons, List.append_assoc, List.cons_append,
          List.singleton_append, List.nil_append] at h2 ⊢
        simpa [rmAux, hc] using h2

/-- A list without `>` is clean. -/
theorem clean_of_not_mem : ∀ l : List Char, '>' ∉ l → clean l = true
  | [], _ => rfl
  | c :: rest, h => by
    have h1 : '>' ∉ rest := fun hm => h (List.mem_cons_of_mem c hm)
    simp [clean, h1, clean_of_not_mem rest h1]

/-- Destructor for `clean` on a cons cell. -/
theorem clean_cons_elim {c : Char} {l : List Char} (h : clean (c :: l) = true) :
    (c = '<' → '>' ∉ l) ∧ clean l = true := by
  simp only [clean, Bool.and_eq_true] at h
  obtain ⟨h1, h2⟩ := h
  refine ⟨fun hc => ?_, h2⟩
  rw [if_pos hc] at h1
  simpa using h1

/-- Constructor for `clean` on a cons cell. -/
theorem clean_cons_intro {c : Char} {l : List Char} (h1 : c = '<' → '>' ∉ l)
    (h2 : clean l = true) : clean (c :: l) = true := by
  simp only [clean, Bool.and_eq_true]
  refine ⟨?_, h2⟩
  by_cases hc : c = '<'
  · rw [if_pos hc]
    simpa using h1 hc
  · rw [if_neg hc]

/-- Every `rmAux` output is clean (in buffering mode, provided the buffer
holds no `>`, which is an invariant of the scan). -/
theorem rmAux_clean : ∀ l : List Char,
    clean (rmAux none l) = true ∧
    ∀ buf : List Char, '>' ∉ buf → clean (rmAux (some buf) l) = true
  | [] => by
    refine ⟨rfl, fun buf hb => ?_⟩
    have hb' : '>' ∉ buf.reverse := by simpa using hb
    exact clean_cons_intro (fun _ => hb') (clean_of_not_mem _ hb')
  | c :: rest => by
    obtain ⟨ih1, ih2⟩ := rmAux_clean rest
    constructor
    · by_cases hc : c = '<'
      · subst hc
        simpa [rmAux] using ih2 [] (by simp)
      · have : clean (c :: rmAux none rest) = true :=
          clean_cons_intro (fun h => absurd h hc) ih1
        simpa [rmAux, hc] using this
    · intro buf hb
      by_cases hc : c = '>'
      · subst hc
        simpa [rmAux] using ih1
      · have hcb : '>' ∉ c :: buf := by
          intro hm
          rcases List.mem_cons.mp hm with h | h
          · exact hc h.symm
          · exact hb h
        simpa [rmAux, hc] using ih2 (c :: buf) hcb

/-- If no `>` remains, a pending span never closes and the scan keeps
everything verbatim. -/
theorem rmAux_some_of_not_mem : ∀ (l buf : List Char), '>' ∉ l →
    rmAux (some buf) l = '<' :: buf.reverse ++ l
  | [], buf, _ => by simp [rmAux]
  | c :: rest, buf, h => by
    have hc : c ≠ '>' := fun e => h (e ▸ List.mem_cons_self c rest)
    have h1 : '>' ∉ rest := fun hm => h (List.mem_cons_of_mem c hm)
    have hc' : ¬ (c = '>') := fun e => hc e
    rw [show rmAux (some buf) (c :: rest) = rmAux (some (c :: buf)) rest by
          simp [rmAux, hc'],
        rmAux_some_of_not_mem rest (c :: buf) h1]
    simp [List.reverse_cons, List.append_assoc]

/-- On a clean list the markup-removal scan is the identity. -/
theorem rmAux_none_of_clean : ∀ l : List Char, clean l = true → rmAux none l = l
  | [], _ => rfl
  | c :: rest, h => by
    obtain ⟨h1, h2⟩ := clean_cons_elim h
    by_cases hc : c = '<'
    · subst hc
      have := rmAux_some_of_not_mem rest [] (h1 rfl)
      simpa [rmAux] using this
    · simpa [rmAux, hc] using rmAux_none_of_clean rest h2

/-- Cleanness is inherited by sublists. -/
theorem clean_of_sublist : ∀ {l' l : List Char}, List.Sublist l' l →
    clean l = true → clean l' = true := by
  intro l' l h
  induction h with
  | slnil => exact fun h => h
  | cons a _ ih => exact fun hc => ih (clean_cons_elim hc).2
  | @cons₂ l₁ l₂ a hs ih =>
    intro hc
    obtain ⟨h1, h2⟩ := clean_cons_elim hc
    exact clean_cons_intro (fun ha hm => h1 ha (hs.subset hm)) (ih h2)

/-- In a clean list, no `<` is followed by a later `>`. -/
theorem clean_no_span : ∀ (pre post : List Char),
    clean (pre ++ '<' :: post) = true → '>' ∉ post
  | [], _, h => (clean_cons_elim h).1 rfl
  | _ :: pre, post, h => clean_no_span pre post (clean_cons_elim h).2

/-- `removeTagSpans` output is a sublist of its input. -/
theorem removeTagSpans_sublist (l : List Char) :
    List.Sublist (removeTagSpans l) l := (rmAux_sublist l).1

/-- `removeTagSpans` output is clean. -/
theorem removeTagSpans_clean (l : List Char) :
    clean (removeTagSpans l) = true := (rmAux_clean l).1

/-- `removeTagSpans` is the identity on clean lists. -/
theorem removeTagSpans_of_clean {l : List Char} (h : clean l = true) :
    removeTagSpans l = l := rmAux_none_of_clean l h

/-! ### Lemmas about stripping -/

/-- `stripChars` output is a sublist of its input. -/
theorem stripChars_sublist (l : List Char) : List.Sublist (stripChars l) l := by
  have h1 : List.Sublist (l.dropWhile pySpace) l :=
    (List.dropWhile_suffix pySpace).sublist
  have h2 : List.Sublist ((l.dropWhile pySpace).reverse.dropWhile pySpace)
      (l.dropWhile pySpace).reverse :=
    (List.dropWhile_suffix pySpace).sublist
  have h3 := h2.reverse
  rw [List.reverse_reverse] at h3
  exact h3.trans h1

/-- The head of a `dropWhile` result fails the predicate. -/
theorem dropWhile_head?_not {α : Type} {p : α → Bool} :
    ∀ {l : List α} {c : α}, (l.dropWhile p).head? = some c → p c = false
  | [], c => by simp
  | a :: rest, c => by
    by_cases hp : p a
    · rw [List.dropWhile_cons, if_pos hp]
      exact dropWhile_head?_not
    · rw [List.dropWhile_cons, if_neg hp]
      intro h
      cases h
      exact Bool.eq_false_iff.mpr hp

/-- `dropWhile` is the identity when the head already fails the predicate. -/
theorem dropWhile_eq_self_of_head {α : Type} {p : α → Bool} :
    ∀ {l : List α}, (∀ c, l.head? = some c → p c = false) → l.dropWhile p = l
  | [], _ => rfl
  | a :: rest, h => by
    have := h a rfl
    simp [List.dropWhile_cons, this]

/-- A list already trimmed on both ends is a `stripChars` fixed point. -/
theorem stripChars_of_trimmed {x : List Char} (h1 : x.dropWhile pySpace = x)
    (h2 : x.reverse.dropWhile pySpace = x.reverse) : stripChars x = x := by
  unfold stripChars
  rw [h1, h2, List.reverse_reverse]

/-- Stripping is idempotent. -/
theorem stripChars_idem (l : List Char) : stripChars (stripChars l) = stripChars l := by
  apply stripChars_of_trimmed
  · apply dropWhile_eq_self_of_head
    intro c hc
    unfold stripChars at hc
    rw [List.head?_reverse] at hc
    have hsuf : ((l.dropWhile pySpace).reverse.dropWhile pySpace)
        <:+ (l.dropWhile pySpace).reverse := List.dropWhile_suffix pySpace
    obtain ⟨t, ht⟩ := hsuf
    have hune : (l.dropWhile pySpace).reverse.dropWhile pySpace ≠ [] := by
      intro h0
      rw [h0] at hc
      simp at hc
    rw [show ((l.dropWhile pySpace).reverse.dropWhile pySpace).getLast?
          = ((l.dropWhile pySpace).reverse).getLast? by
        conv_rhs => rw [← ht]
        rw [List.getLast?_append_of_ne_nil t hune],
      List.getLast?_reverse] at hc
    exact dropWhile_head?_not hc
  · unfold stripChars
    rw [List.reverse_reverse]
    exact dropWhile_eq_self_of_head (fun c hc => dropWhile_head?_not hc)

/-! ### Lemmas about substring search -/

/-- `startsWithChars` decides the existence of a completing tail. -/
theorem startsWithChars_iff : ∀ (n h : List Char),
    startsWithChars n h = true ↔ ∃ t, h = n ++ t
  | [], h => by
    simp [startsWithChars]
  | a :: as, [] => by
    simp [startsWithChars]
  | a :: as, b :: bs => by
    simp only [startsWithChars, Bool.and_eq_true, decide_eq_true_eq,
      startsWithChars_iff as bs]
    constructor
    · rintro ⟨rfl, t, rfl⟩
      exact ⟨t, rfl⟩
    · rintro ⟨t, ht⟩
      rw [List.cons_append] at ht
      injection ht with h1 h2
      exact ⟨h1.symm, t, h2⟩

/-- `hasSub` decides the existence of a substring occurrence. -/
theorem hasSub_iff : ∀ (n h : List Char),
    hasSub n h = true ↔ ∃ pre post, h = pre ++ n ++ post
  | n, [] => by
    rw [show hasSub n [] = startsWithChars n [] from rfl, startsWithChars_iff]
    constructor
    · rintro ⟨t, ht⟩
      exact ⟨[], t, by simpa using ht⟩
    · rintro ⟨pre, post, hp⟩
      rcases List.append_eq_nil.mp (List.append_eq_nil.mp hp.symm).1 with ⟨hpre, hn⟩
      exact ⟨[], by simp [hn]⟩
  | n, c :: rest => by
    rw [show hasSub n (c :: rest)
          = (startsWithChars n (c :: rest) || hasSub n rest) from rfl]
    rw [Bool.or_eq_true, startsWithChars_iff, hasSub_iff n rest]
    constructor
    · rintro (⟨t, ht⟩ | ⟨pre, post, hp⟩)
      · exact ⟨[], t, by simpa using ht⟩
      · exact ⟨c :: pre, post, by simp [hp]⟩
    · rintro ⟨pre, post, hp⟩
      cases pre with
      | nil =>
        exact Or.inl ⟨post, by simpa using hp⟩
      | cons c' pre' =>
        rw [List.append_assoc, List.cons_append] at hp
        injection hp with h1 h2
        exact Or.inr ⟨pre', post, by simp [h2]⟩

/-! ### Lemmas about the rotator -/

/-- One in-range step of the rotator: return the identifier at the cursor and
advance the cursor modulo the length. -/
theorem get_next_step (st : SessionState)
    (h : st.current_model_index < st.quickvibe_chat_models.length) :
    get_next_quickvibe_model st =
      (st.quickvibe_chat_models.get? st.current_model_index,
       { st with current_model_index :=
          (st.current_model_index + 1) % st.quickvibe_chat_models.length }) := by
  have hne : st.quickvibe_chat_models ≠ [] := by
    intro h0
    rw [h0] at h
    simp at h
  unfold get_next_quickvibe_model
  rw [if_neg hne, dif_pos h, List.get?_eq_get h]

/-- State and outputs of `k` successive rotator calls from an in-range
cursor: the outputs are the identifiers at the successive cursor positions
modulo the length, and the final cursor is the start advanced by `k` modulo
the length. -/
theorem rotateN_spec (ms : List String) : ∀ (k : Nat) (st : SessionState),
    st.quickvibe_chat_models = ms → st.current_model_index < ms.length →
    (rotateN st k).1
        = (List.range k).map
            (fun j => ms.get? ((st.current_model_index + j) % ms.length)) ∧
    (rotateN st k).2
        = { st with current_model_index :=
              (st.current_model_index + k) % ms.length }
  | 0, st, hm, hi => by
    refine ⟨by simp [rotateN], ?_⟩
    simp [rotateN, Nat.mod_eq_of_lt hi]
  | k + 1, st, hm, hi => by
    subst hm
    have hlen : 0 < st.quickvibe_chat_models.length :=
      Nat.lt_of_le_of_lt (Nat.zero_le _) hi
    have hstep := get_next_step st hi
    obtain ⟨ihout, ihst⟩ := rotateN_spec st.quickvibe_chat_models k
      { st with current_model_index :=
          (st.current_model_index + 1) % st.quickvibe_chat_models.length }
      rfl (Nat.mod_lt _ hlen)
    dsimp only at ihout ihst
    have hfun : (fun j => st.quickvibe_chat_models.get?
          (((st.current_model_index + 1) % st.quickvibe_chat_models.length + j)
            % st.quickvibe_chat_models.length))
        = (fun j => st.quickvibe_chat_models.get?
            ((st.current_model_index + j) % st.quickvibe_chat_models.length))
            ∘ Nat.succ := by
      funext j
      simp only [Function.comp, Nat.succ_eq_add_one]
      rw [Nat.mod_add_mod, show st.current_model_index + 1 + j
          = st.current_model_index + (j + 1) by omega]
    have hidx : ((st.current_model_index + 1) % st.quickvibe_chat_models.length
          + k) % st.quickvibe_chat_models.length
        = (st.current_model_index + (k + 1)) % st.quickvibe_chat_models.length := by
      rw [Nat.mod_add_mod]
      congr 1
      omega
    constructor
    · show (get_next_quickvibe_model st).1
          :: (rotateN (get_next_quickvibe_model st).2 k).1 = _
      rw [hstep]
      dsimp only
      rw [ihout, List.range_succ_eq_map k, List.map_cons, List.map_map, hfun]
      congr 1
      rw [Nat.add_zero, Nat.mod_eq_of_lt hi]
    · show (rotateN (get_next_quickvibe_model st).2 k).2 = _
      rw [hstep]
      dsimp only
      rw [ihst]
      rw [hidx]

/-! ### Lemmas about the error log and state preservation -/

/-- The error log after `log_quickvibe_error`, with the lets unfolded. -/
theorem log_error_log_eq (now : Nat) (m : String) (st : SessionState) :
    (log_quickvibe_error now m st).error_log =
      (if (st.error_log ++ [(⟨now, m⟩ : ErrorLogEntry)]).length > 100 then
        (st.error_log ++ [(⟨now, m⟩ : ErrorLogEntry)]).drop
          ((st.error_log ++ [(⟨now, m⟩ : ErrorLogEntry)]).length - 50)
      else st.error_log ++ [(⟨now, m⟩ : ErrorLogEntry)]) := rfl

/-- Dropping up to all but one element of `l ++ [a]` keeps `a` as the last
element. -/
theorem getLast?_drop_concat {α : Type} (l : List α) (a : α) (k : Nat)
    (hk : k < (l ++ [a]).length) : ((l ++ [a]).drop k).getLast? = some a := by
  obtain ⟨t, ht⟩ := List.drop_suffix k (l ++ [a])
  have hne : (l ++ [a]).drop k ≠ [] := by
    have hlen := List.length_drop k (l ++ [a])
    intro h0
    rw [h0] at hlen
    simp only [List.length_nil] at hlen
    omega
  have hla := List.getLast?_append_of_ne_nil t hne
  rw [ht] at hla
  rw [← hla]
  exact List.getLast?_concat l

/-- The entry just logged is always the last element of the resulting log,
whether or not the bound truncated older entries. -/
theorem log_error_getLast (now : Nat) (m : String) (st : SessionState) :
    (log_quickvibe_error now m st).error_log.getLast? = some ⟨now, m⟩ := by
  rw [log_error_log_eq]
  split
  · exact getLast?_drop_concat st.error_log ⟨now, m⟩ _
      (by simp only [List.length_append, List.length_cons, List.length_nil]; omega)
  · exact List.getLast?_concat _

/-- Below the bound, logging is a plain append of the timestamped entry. -/
theorem log_error_append (now : Nat) (m : String) (st : SessionState)
    (h : st.error_log.length ≤ 99) :
    (log_quickvibe_error now m st).error_log = st.error_log ++ [⟨now, m⟩] := by
  rw [log_error_log_eq, if_neg]
  simp only [List.length_append, List.length_cons, List.length_nil]
  omega

/-- `log_quickvibe_error` only touches the error log. -/
theorem log_chat_history_eq (now : Nat) (m : String) (st : SessionState) :
    (log_quickvibe_error now m st).chat_history = st.chat_history := rfl

/-- The dispatcher never touches the chat history. -/
theorem send_chat_history_eq (st : SessionState) (now : Nat) (o : ApiOutcome)
    (model umsg : String) (t : Rat) :
    (send_quickvibe_message st now o model umsg t).2.chat_history
      = st.chat_history := by
  unfold send_quickvibe_message
  dsimp only
  repeat' split
  all_goals rfl

/-- The auto-validation step never touches the chat history. -/
theorem auto_validate_chat_history_eq (st : SessionState)
    (lout : ModelsListOutcome) :
    (_auto_validate_api_key st lout).chat_history = st.chat_history := by
  unfold _auto_validate_api_key
  split
  all_goals rfl

/-- The auto-validation step never touches the session error log (catalog
failures are reported as return values, not logged to the session). -/
theorem auto_validate_error_log_eq (st : SessionState)
    (lout : ModelsListOutcome) :
    (_auto_validate_api_key st lout).error_log = st.error_log := by
  unfold _auto_validate_api_key
  split
  all_goals rfl

/-- The rotator never touches the chat history. -/
theorem get_next_chat_history_eq (st : SessionState) :
    (get_next_quickvibe_model st).2.chat_history = st.chat_history := by
  unfold get_next_quickvibe_model
  repeat' split
  all_goals rfl

/-- The dispatcher on a raised exception, with every validation passing:
tagged failure value plus one logged entry. -/
theorem send_exn_spec (st : SessionState) (now : Nat) (model umsg e : String)
    (t : Rat) (hm : model ≠ "") (hu : umsg ≠ "") (hk : st.api_key ≠ "")
    (hs : sanitize_input umsg ≠ "") :
    send_quickvibe_message st now (ApiOutcome.exn e) model umsg t
      = ((false, "💀 Yikes, server\x27s trippin\x27: " ++ e),
         log_quickvibe_error now
           ("QuickVibe chat failed with model " ++ model ++ ": " ++ e) st) := by
  unfold send_quickvibe_message
  rw [if_neg (by simp [hm, hu]), if_neg hk]
  dsimp only
  rw [if_neg hs]

/-- The dispatcher on an empty or missing reply, with every validation
passing: tagged failure value plus one logged entry. -/
theorem send_empty_reply_spec (st : SessionState) (now : Nat)
    (model umsg : String) (t : Rat) (choices : List Choice)
    (hm : model ≠ "") (hu : umsg ≠ "") (hk : st.api_key ≠ "")
    (hs : sanitize_input umsg ≠ "") (he : emptyReply choices = true) :
    send_quickvibe_message st now (ApiOutcome.ok choices) model umsg t
      = ((false, "💀 Yikes, got empty response: No response content generated"),
         log_quickvibe_error now "No response content generated" st) := by
  have hmsg : ("💀 Yikes, got empty response: " ++ "No response content generated"
      : String) = "💀 Yikes, got empty response: No response content generated" := by
    decide
  rcases choices with _ | ⟨c, rest⟩
  · unfold send_quickvibe_message
    rw [if_neg (by simp [hm, hu]), if_neg hk]
    dsimp only
    rw [if_neg hs]
    dsimp only [List.head?]
    rw [hmsg]
  · rcases c with ⟨co⟩
    rcases co with _ | s
    · unfold send_quickvibe_message
      rw [if_neg (by simp [hm, hu]), if_neg hk]
      dsimp only
      rw [if_neg hs]
      dsimp only [List.head?]
      rw [hmsg]
    · have hs0 : s = "" := by simpa [emptyReply] using he
      subst hs0
      unfold send_quickvibe_message
      rw [if_neg (by simp [hm, hu]), if_neg hk]
      dsimp only
      rw [if_neg hs]
      dsimp only [List.head?]
      rw [if_pos rfl, hmsg]

/-! ### Claim theorems -/

/-- Claim C1: for every non-empty model sequence of length N with the cursor
initially 0, N successive `get_next_quickvibe_model` calls return each
identifier exactly once in the original order, each call advancing the cursor
by one modulo N, and the (N+1)-th call returns the first identifier again. -/
theorem C1_rotator_cycle (ms : List String) (st : SessionState)
    (hne : ms ≠ []) (hm : st.quickvibe_chat_models = ms)
    (hc : st.current_model_index = 0) :
    (rotateN st ms.length).1 = ms.map some ∧
    (∀ k : Nat, (rotateN st k).2.current_model_index = k % ms.length) ∧
    (rotateN st (ms.length + 1)).1 = ms.map some ++ [ms.head?] := by
  have hlen : 0 < ms.length := List.length_pos.mpr hne
  have hi : st.current_model_index < ms.length := by rw [hc]; exact hlen
  have hlist : (List.range ms.length).map
      (fun j => ms.get? ((0 + j) % ms.length)) = ms.map some := by
    apply List.ext_get
    · simp
    · intro n h1 h2
      have hn : n < ms.length := by simpa using h2
      simp [Nat.mod_eq_of_lt hn, List.get?_eq_getElem?, List.getElem?_eq_getElem hn]
  refine ⟨?_, ?_, ?_⟩
  · have h := (rotateN_spec ms ms.length st hm hi).1
    rw [hc] at h
    rw [h, hlist]
  · intro k
    have h := (rotateN_spec ms k st hm hi).2
    rw [h]
    dsimp only
    rw [hc, Nat.zero_add]
  · have h := (rotateN_spec ms (ms.length + 1) st hm hi).1
    rw [hc] at h
    rw [h, List.range_succ ms.length, List.map_append, hlist]
    simp only [List.map_cons, List.map_nil]
    rw [Nat.zero_add, Nat.mod_self, List.get?_zero]

/-- Claim C1 witness: the cycle at the concrete catalog
["a", "b", "c"] from cursor 0. -/
theorem C1_rotator_cycle_witness :
    (rotateN (⟨"gsk_k", true, ["a", "b", "c"], 0, [], [], "Witty 😏"⟩ :
        SessionState) (["a", "b", "c"] : List String).length).1
      = (["a", "b", "c"] : List String).map some ∧
    (rotateN (⟨"gsk_k", true, ["a", "b", "c"], 0, [], [], "Witty 😏"⟩ :
        SessionState) 7).2.current_model_index
      = 7 % (["a", "b", "c"] : List String).length ∧
    (rotateN (⟨"gsk_k", true, ["a", "b", "c"], 0, [], [], "Witty 😏"⟩ :
        SessionState) ((["a", "b", "c"] : List String).length + 1)).1
      = (["a", "b", "c"] : List String).map some
          ++ [(["a", "b", "c"] : List String).head?] := by
  have h := C1_rotator_cycle ["a", "b", "c"]
    ⟨"gsk_k", true, ["a", "b", "c"], 0, [], [], "Witty 😏"⟩
    (by decide) rfl rfl
  exact ⟨h.1, h.2.1 7, h.2.2⟩

/-- Claim C8: on a session whose model sequence is empty, the rotator returns
no selection and leaves the state untouched, whatever the cursor holds; being
a total function of the state, it raises nothing. -/
theorem C8_rotator_empty (st : SessionState)
    (h : st.quickvibe_chat_models = []) :
    get_next_quickvibe_model st = (none, st) := by
  unfold get_next_quickvibe_model
  rw [if_pos h]

/-- Claim C8 witness: an empty catalog with an out-of-range cursor value 5. -/
theorem C8_rotator_empty_witness :
    get_next_quickvibe_model
        (⟨"gsk_k", false, [], 5, [], [], "Witty 😏"⟩ : SessionState)
      = (none, ⟨"gsk_k", false, [], 5, [], [], "Witty 😏"⟩) :=
  C8_rotator_empty _ rfl

/-- Claim C2: the chat-suitability filter excludes an identifier that
contains (case-insensitively) any excluded keyword, and otherwise includes it
iff it contains at least one included keyword; in particular a catalog fetch
returning ["llama-70b", "whisper-large", "llama-guard-2"] filters to exactly
["llama-70b"]. -/
theorem C2_chat_filter :
    (∀ s : String, _is_chat_model s = true ↔
      ((∀ k ∈ excluded_keywords,
          ¬ ∃ pre post, lowerChars s = pre ++ k.data ++ post) ∧
       (∃ k ∈ included_keywords,
          ∃ pre post, lowerChars s = pre ++ k.data ++ post))) ∧
    fetch_groq_models_for_quickvibe "gsk_ABCDEFGHIJabcdefghij0123456789ABCDEFGHIJ"
        (ModelsListOutcome.page [⟨"llama-70b"⟩, ⟨"whisper-large"⟩, ⟨"llama-guard-2"⟩])
      = (true, FetchResult.models [⟨"llama-70b"⟩]) := by
  constructor
  · intro s
    rw [show _is_chat_model s
        = (if excluded_keywords.any (fun k => hasSub k.data (lowerChars s))
            then false
            else included_keywords.any (fun k => hasSub k.data (lowerChars s)))
      from rfl]
    by_cases hex :
        excluded_keywords.any (fun k => hasSub k.data (lowerChars s)) = true
    · rw [if_pos hex]
      obtain ⟨k, hk, hsub⟩ := List.any_eq_true.mp hex
      have hocc := (hasSub_iff k.data (lowerChars s)).mp hsub
      constructor
      · intro hfalse
        exact absurd hfalse (by simp)
      · rintro ⟨hA, -⟩
        exact absurd hocc (hA k hk)
    · rw [if_neg hex]
      have hA : ∀ k ∈ excluded_keywords,
          ¬ ∃ pre post, lowerChars s = pre ++ k.data ++ post := by
        intro k hk hocc
        exact hex (List.any_eq_true.mpr
          ⟨k, hk, (hasSub_iff k.data (lowerChars s)).mpr hocc⟩)
      rw [List.any_eq_true]
      constructor
      · rintro ⟨k, hk, hsub⟩
        exact ⟨hA, k, hk, (hasSub_iff _ _).mp hsub⟩
      · rintro ⟨-, k, hk, hocc⟩
        exact ⟨k, hk, (hasSub_iff _ _).mpr hocc⟩
  · decide

/-- Claim C3 counterexample: the sanitizer is not idempotent.  On the input
"a <b>" the first pass removes the span and leaves the trailing space that
preceded it, and a second pass strips that space away. -/
theorem C3_sanitize_not_idempotent :
    sanitize_input "a <b>" = "a " ∧
    sanitize_input (sanitize_input "a <b>") = "a" ∧
    sanitize_input (sanitize_input "a <b>") ≠ sanitize_input "a <b>" := by
  decide

/-- Claim C3 (amended): a second sanitization pass coincides with merely
stripping the first pass output (markup removal can expose new edge
whitespace, which only the strip step of a repeated pass removes); in
particular twice-sanitized text is a fixed point of the sanitizer. -/
theorem C3_sanitize_second_pass (s : String) :
    sanitize_input (sanitize_input s) = pyStrip (sanitize_input s) := by
  show (⟨removeTagSpans ((stripChars (sanitize_input s).data).take 2000)⟩ : String)
      = ⟨stripChars (sanitize_input s).data⟩
  have hdata : (sanitize_input s).data
      = removeTagSpans ((stripChars s.data).take 2000) := rfl
  have hyc : clean (sanitize_input s).data = true := by
    rw [hdata]
    exact removeTagSpans_clean _
  have hlen : (stripChars (sanitize_input s).data).length ≤ 2000 := by
    have h1 := (stripChars_sublist (sanitize_input s).data).length_le
    have h2 := (removeTagSpans_sublist ((stripChars s.data).take 2000)).length_le
    rw [← hdata] at h2
    have h3 : ((stripChars s.data).take 2000).length ≤ 2000 := by
      rw [List.length_take]
      exact Nat.min_le_left _ _
    omega
  have hcl : clean (stripChars (sanitize_input s).data) = true :=
    clean_of_sublist (stripChars_sublist _) hyc
  rw [List.take_of_length_le hlen, removeTagSpans_of_clean hcl]

/-- Claim C4 counterexample: the input "<a>b<c" contains the complete span
"<a>", yet the sanitized output "b<c" still contains a '<' character (the
unmatched one). -/
theorem C4_sanitize_brackets_counterexample :
    "<a>b<c".data = '<' :: 'a' :: '>' :: "b<c".data ∧
    sanitize_input "<a>b<c" = "b<c" ∧
    '<' ∈ (sanitize_input "<a>b<c").data := by
  decide

/-- Claim C4 (amended): for every input the sanitizer output is at most 2000
characters and contains no complete angle-bracket span: no '<' of the output
has a '>' anywhere after it.  (A lone unmatched '<' or '>' can survive,
which is what falsifies the original claim.) -/
theorem C4_sanitize_no_spans (s : String) :
    (sanitize_input s).length ≤ 2000 ∧
    ∀ pre post, (sanitize_input s).data = pre ++ '<' :: post → '>' ∉ post := by
  have hdata : (sanitize_input s).data
      = removeTagSpans ((stripChars s.data).take 2000) := rfl
  constructor
  · show (sanitize_input s).data.length ≤ 2000
    have h2 := (removeTagSpans_sublist ((stripChars s.data).take 2000)).length_le
    rw [← hdata] at h2
    have h3 : ((stripChars s.data).take 2000).length ≤ 2000 := by
      rw [List.length_take]
      exact Nat.min_le_left _ _
    omega
  · intro pre post hsplit
    have hyc : clean (sanitize_input s).data = true := by
      rw [hdata]
      exact removeTagSpans_clean _
    rw [hsplit] at hyc
    exact clean_no_span pre post hyc

/-- Claim C7 counterexample: a whitespace-padded valid key is at least 32
characters long and, as the raw string, does not match the gsk_ pattern —
the claim therefore demands it be rejected — yet the validator accepts it,
because the source checks the pattern against the *stripped* key. -/
theorem C7_validate_counterexample :
    matchesKeyPat " gsk_ABCDEFGHIJabcdefghij0123456789ABCDEFGHIJ".data = false ∧
    32 ≤ " gsk_ABCDEFGHIJabcdefghij0123456789ABCDEFGHIJ".length ∧
    validate_api_key
        (ApiKeyInput.str " gsk_ABCDEFGHIJabcdefghij0123456789ABCDEFGHIJ")
      = (true, "") := by
  decide

/-- Claim C7 (amended): the validator is a total function (nothing throws);
its reason is empty exactly when the verdict is valid; non-string input is
invalid with a non-empty reason; and whenever the WHITESPACE-TRIMMED input is
shorter than 32 characters or fails the gsk_ pattern, the verdict is invalid
with a non-empty reason.  "gsk_" plus 40 alphanumerics validates; "abc123"
is rejected with the too-short reason. -/
theorem C7_validate_rejections :
    (∀ inp : ApiKeyInput,
      ((validate_api_key inp).1 = true ↔ (validate_api_key inp).2 = "")) ∧
    ((validate_api_key ApiKeyInput.nonStr).1 = false ∧
      (validate_api_key ApiKeyInput.nonStr).2 ≠ "") ∧
    (∀ s : String,
      (stripChars s.data).length < MIN_API_KEY_LENGTH ∨
        matchesKeyPat (stripChars s.data) = false →
      (validate_api_key (ApiKeyInput.str s)).1 = false ∧
        (validate_api_key (ApiKeyInput.str s)).2 ≠ "") ∧
    validate_api_key
        (ApiKeyInput.str "gsk_ABCDEFGHIJabcdefghij0123456789ABCDEFGHIJ")
      = (true, "") ∧
    validate_api_key (ApiKeyInput.str "abc123")
      = (false, "API key too short (minimum 32 characters)") := by
  refine ⟨?_, by decide, ?_, by decide, by decide⟩
  · intro inp
    cases inp with
    | nonStr => decide
    | str s =>
      unfold validate_api_key
      dsimp only
      split
      · decide
      · split
        · decide
        · split
          · decide
          · decide
  · intro s hcond
    unfold validate_api_key
    dsimp only
    split
    · exact ⟨rfl, by decide⟩
    · split
      · exact ⟨rfl, by decide⟩
      · next hlen =>
        split
        · exact ⟨rfl, by decide⟩
        · next hpat =>
          exfalso
          rcases hcond with hshort | hmiss
          · exact hlen hshort
          · rw [hmiss] at hpat
            exact hpat rfl

/-- Claim C10 counterexample: for the all-whitespace input " " the validator
answers with the too-short reason, while on its stripped form "" it answers
with the required reason: the (valid, reason) pairs differ. -/
theorem C10_validate_strip_counterexample :
    pyStrip " " = "" ∧
    validate_api_key (ApiKeyInput.str " ")
      = (false, "API key too short (minimum 32 characters)") ∧
    validate_api_key (ApiKeyInput.str (pyStrip " "))
      = (false, "API key is required") ∧
    validate_api_key (ApiKeyInput.str " ")
      ≠ validate_api_key (ApiKeyInput.str (pyStrip " ")) := by
  decide

/-- Claim C10 (amended): the validator's boolean verdict is invariant under
leading/trailing whitespace, and whenever the trimmed input is non-empty the
whole (valid, reason) pair is invariant; the reasons can differ only when
trimming empties the string (required vs. too-short, both invalid).  A
whitespace-padded valid credential is reported valid. -/
theorem C10_validate_strip_invariant :
    (∀ s : String,
      (validate_api_key (ApiKeyInput.str s)).1
        = (validate_api_key (ApiKeyInput.str (pyStrip s))).1 ∧
      (pyStrip s ≠ "" →
        validate_api_key (ApiKeyInput.str s)
          = validate_api_key (ApiKeyInput.str (pyStrip s)))) ∧
    validate_api_key
        (ApiKeyInput.str "  gsk_ABCDEFGHIJabcdefghij0123456789ABCDEFGHIJ  ")
      = (true, "") := by
  constructor
  · intro s
    by_cases hs0 : s = ""
    · subst hs0
      exact ⟨by decide, fun h => absurd (show pyStrip "" = "" by decide) h⟩
    · by_cases ht0 : pyStrip s = ""
      · have hempty : stripChars s.data = [] := by
          have hd := congrArg String.data ht0
          simpa using hd
        constructor
        · have h1 : (validate_api_key (ApiKeyInput.str s)).1 = false := by
            unfold validate_api_key
            dsimp only
            rw [if_neg hs0, if_pos (by rw [hempty]; decide)]
          have h2 : (validate_api_key (ApiKeyInput.str (pyStrip s))).1 = false := by
            rw [ht0]
            decide
          rw [h1, h2]
        · intro h
          exact absurd ht0 h
      · have heq : validate_api_key (ApiKeyInput.str s)
            = validate_api_key (ApiKeyInput.str (pyStrip s)) := by
          unfold validate_api_key
          dsimp only
          rw [if_neg hs0, if_neg ht0,
            show stripChars (pyStrip s).data = stripChars s.data
              from stripChars_idem s.data]
        exact ⟨congrArg Prod.fst heq, fun _ => heq⟩
  · decide

/-- Claim C5 counterexample: a failing dispatch call (missing model) returns
a tagged failure with the session — and in particular its error log —
unchanged, and a failing catalog fetch wrapped by auto-validation likewise
leaves the (empty) error log empty: not every failure path appends a
timestamped entry. -/
theorem C5_error_logging_counterexample :
    send_quickvibe_message
        (⟨"gsk_k", true, ["m"], 0, [], [], "Witty 😏"⟩ : SessionState) 5
        (ApiOutcome.ok []) "" "hi" 1
      = ((false, "Model and message are required."),
         (⟨"gsk_k", true, ["m"], 0, [], [], "Witty 😏"⟩ : SessionState)) ∧
    (send_quickvibe_message
        (⟨"gsk_k", true, ["m"], 0, [], [], "Witty 😏"⟩ : SessionState) 5
        (ApiOutcome.ok []) "" "hi" 1).2.error_log = [] ∧
    fetch_groq_models_for_quickvibe "bad" (ModelsListOutcome.exn "down")
      = (false, FetchResult.error
          "API key validation failed: API key too short (minimum 32 characters)") ∧
    (_auto_validate_api_key
        (⟨"bad", false, [], 0, [], [], "Witty 😏"⟩ : SessionState)
        (ModelsListOutcome.exn "down")).error_log = [] := by
  decide

/-- Claim C5 (amended): only the two remote dispatch failures (exception and
empty reply) append a {timestamp, message} entry to the bounded session error
log — the appended entry, carrying the call timestamp, becomes the last log
element; the dispatcher's three validation failures return tagged failures
with the state unchanged, and the catalog path (auto-validation around the
fetcher, whose failures are returned as values) never changes the error log
at all. -/
theorem C5_error_logging (st : SessionState) (now : Nat) (o : ApiOutcome)
    (model umsg e : String) (t : Rat) (choices : List Choice)
    (lout : ModelsListOutcome) :
    (model = "" ∨ umsg = "" →
      send_quickvibe_message st now o model umsg t
        = ((false, "Model and message are required."), st)) ∧
    (model ≠ "" → umsg ≠ "" → st.api_key = "" →
      send_quickvibe_message st now o model umsg t
        = ((false,
            "No API key configured. Please add your API key in the sidebar."),
           st)) ∧
    (model ≠ "" → umsg ≠ "" → st.api_key ≠ "" → sanitize_input umsg = "" →
      send_quickvibe_message st now o model umsg t
        = ((false, "Invalid or empty message after sanitization."), st)) ∧
    (model ≠ "" → umsg ≠ "" → st.api_key ≠ "" → sanitize_input umsg ≠ "" →
      (send_quickvibe_message st now (ApiOutcome.exn e) model umsg t).2
        = log_quickvibe_error now
            ("QuickVibe chat failed with model " ++ model ++ ": " ++ e) st) ∧
    (model ≠ "" → umsg ≠ "" → st.api_key ≠ "" → sanitize_input umsg ≠ "" →
      emptyReply choices = true →
      (send_quickvibe_message st now (ApiOutcome.ok choices) model umsg t).2
        = log_quickvibe_error now "No response content generated" st) ∧
    (∀ m : String,
      (log_quickvibe_error now m st).error_log.getLast? = some ⟨now, m⟩) ∧
    (_auto_validate_api_key st lout).error_log = st.error_log := by
  refine ⟨?_, ?_, ?_, ?_, ?_, ?_, ?_⟩
  · intro h
    unfold send_quickvibe_message
    rw [if_pos (by rcases h with h | h <;> simp [h])]
  · intro hm hu hk0
    unfold send_quickvibe_message
    rw [if_neg (by simp [hm, hu]), if_pos hk0]
  · intro hm hu hk hsan
    unfold send_quickvibe_message
    rw [if_neg (by simp [hm, hu]), if_neg hk]
    dsimp only
    rw [if_pos hsan]
  · intro hm hu hk hs
    rw [send_exn_spec st now model umsg e t hm hu hk hs]
  · intro hm hu hk hs he
    rw [send_empty_reply_spec st now model umsg t choices hm hu hk hs he]
  · intro m
    exact log_error_getLast now m st
  · exact auto_validate_error_log_eq st lout

/-- Claim C6: with the validations passing, an empty or missing reply makes
the dispatcher return a tagged failure whose message differs from the
network-exception failure message whatever the exception text; each of the
two failure paths appends exactly one timestamped entry to the session error
log (a plain append of that entry while the log is below its bound); and both
paths return failure values — the exception enters the embedding as the
`ApiOutcome.exn` observation and is converted, never propagated. -/
theorem C6_dispatch_failure_modes (st : SessionState) (now : Nat)
    (model umsg e : String) (t : Rat) (choices : List Choice)
    (hm : model ≠ "") (hu : umsg ≠ "") (hk : st.api_key ≠ "")
    (hs : sanitize_input umsg ≠ "") (he : emptyReply choices = true) :
    send_quickvibe_message st now (ApiOutcome.ok choices) model umsg t
      = ((false, "💀 Yikes, got empty response: No response content generated"),
         log_quickvibe_error now "No response content generated" st) ∧
    send_quickvibe_message st now (ApiOutcome.exn e) model umsg t
      = ((false, "💀 Yikes, server\x27s trippin\x27: " ++ e),
         log_quickvibe_error now
           ("QuickVibe chat failed with model " ++ model ++ ": " ++ e) st) ∧
    ("💀 Yikes, got empty response: No response content generated"
      ≠ "💀 Yikes, server\x27s trippin\x27: " ++ e) ∧
    (st.error_log.length ≤ 99 →
      (send_quickvibe_message st now (ApiOutcome.ok choices)
          model umsg t).2.error_log
        = st.error_log ++ [⟨now, "No response content generated"⟩] ∧
      (send_quickvibe_message st now (ApiOutcome.exn e)
          model umsg t).2.error_log
        = st.error_log
            ++ [⟨now, "QuickVibe chat failed with model " ++ model
                  ++ ": " ++ e⟩]) := by
  have h1 := send_empty_reply_spec st now model umsg t choices hm hu hk hs he
  have h2 := send_exn_spec st now model umsg e t hm hu hk hs
  refine ⟨h1, h2, ?_, ?_⟩
  · intro hbad
    have hdata := congrArg String.data hbad
    rw [show ("💀 Yikes, server\x27s trippin\x27: " ++ e).data
        = "💀 Yikes, server\x27s trippin\x27: ".data ++ e.data from rfl]
      at hdata
    have h9 := congrArg (fun l : List Char => l[9]?) hdata
    dsimp only at h9
    rw [List.getElem?_append_left
      (by decide : (9 : Nat) < "💀 Yikes, server\x27s trippin\x27: ".data.length)]
      at h9
    exact absurd h9 (by decide)
  · intro hlog
    constructor
    · rw [h1]
      exact log_error_append now _ st hlog
    · rw [h2]
      exact log_error_append now _ st hlog

/-- Claim C6 witness: the two dispatch failure modes at a concrete session,
timestamp 5, model "m", message "hi", exception text "boom". -/
theorem C6_dispatch_failure_modes_witness :
    send_quickvibe_message
        (⟨"gsk_k", true, ["m"], 0, [], [], "Witty 😏"⟩ : SessionState) 5
        (ApiOutcome.ok []) "m" "hi" 1
      = ((false, "💀 Yikes, got empty response: No response content generated"),
         log_quickvibe_error 5 "No response content generated"
           (⟨"gsk_k", true, ["m"], 0, [], [], "Witty 😏"⟩ : SessionState)) ∧
    send_quickvibe_message
        (⟨"gsk_k", true, ["m"], 0, [], [], "Witty 😏"⟩ : SessionState) 5
        (ApiOutcome.exn "boom") "m" "hi" 1
      = ((false, "💀 Yikes, server\x27s trippin\x27: " ++ "boom"),
         log_quickvibe_error 5
           ("QuickVibe chat failed with model " ++ "m" ++ ": " ++ "boom")
           (⟨"gsk_k", true, ["m"], 0, [], [], "Witty 😏"⟩ : SessionState)) ∧
    ("💀 Yikes, got empty response: No response content generated"
      ≠ "💀 Yikes, server\x27s trippin\x27: " ++ "boom") := by
  have h := C6_dispatch_failure_modes
    (⟨"gsk_k", true, ["m"], 0, [], [], "Witty 😏"⟩ : SessionState) 5
    "m" "hi" "boom" 1 [] (by decide) (by decide) (by decide) (by decide) rfl
  exact ⟨h.1, h.2.1, h.2.2.1⟩

/-- Claim C9 counterexample: starting from a transcript already at the cap
of 50, one user-action step appends a user entry and an assistant entry with
no truncation, leaving 52 entries — the documented user-action operation
exceeds the cap. -/
theorem C9_history_cap_counterexample :
    (quickvibe_handle_user_input
        (⟨"gsk_k", true, ["m"], 0,
          List.replicate 50 ⟨Role.user, "x", none, false⟩, [],
          "Witty 😏"⟩ : SessionState)
        0 "hi" (ApiOutcome.ok [⟨some "yo"⟩])).chat_history.length = 52 ∧
    50 < 52 := by
  constructor
  · decide
  · decide

/-- Claim C9 (amended): the cap is enforced only by initialization, which
truncates the transcript to a suffix (the most recent entries, oldest
dropped first) of at most 50; a user-action step appends at most two entries
without truncating, so between a user action and the next initialization the
transcript can transiently reach 52 entries. -/
theorem C9_history_cap (st : SessionState) (lout : ModelsListOutcome)
    (now : Nat) (input : String) (o : ApiOutcome) :
    (init_quickvibe_session_state st lout).chat_history.length ≤ 50 ∧
    (init_quickvibe_session_state st lout).chat_history <:+ st.chat_history ∧
    (quickvibe_handle_user_input st now input o).chat_history.length
      ≤ st.chat_history.length + 2 := by
  have hstep : ∀ st1 : SessionState,
      (if st1.api_key ≠ "" && !st1.api_validated then
        _auto_validate_api_key st1 lout
      else st1).chat_history = st1.chat_history := by
    intro st1
    split
    · exact auto_validate_chat_history_eq st1 lout
    · rfl
  have hinit : (init_quickvibe_session_state st lout).chat_history
      = (if st.chat_history.length > MAX_CHAT_HISTORY then
          st.chat_history.drop (st.chat_history.length - MAX_CHAT_HISTORY)
        else st.chat_history) := by
    unfold init_quickvibe_session_state
    dsimp only
    rw [hstep]
    by_cases h1 : st.chat_history.length > MAX_CHAT_HISTORY
    · rw [if_pos h1, if_pos h1]
    · rw [if_neg h1, if_neg h1]
  refine ⟨?_, ?_, ?_⟩
  · rw [hinit]
    by_cases h1 : st.chat_history.length > MAX_CHAT_HISTORY
    · rw [if_pos h1, List.length_drop]
      simp only [MAX_CHAT_HISTORY] at h1 ⊢
      omega
    · rw [if_neg h1]
      simp only [MAX_CHAT_HISTORY] at h1
      omega
  · rw [hinit]
    by_cases h1 : st.chat_history.length > MAX_CHAT_HISTORY
    · rw [if_pos h1]
      exact List.drop_suffix _ _
    · rw [if_neg h1]
  · unfold quickvibe_handle_user_input
    by_cases h0 : input = ""
    · rw [if_pos h0]
      omega
    · rw [if_neg h0]
      dsimp only
      split
      · next st2 heq =>
        have hch := get_next_chat_history_eq
          { st with chat_history :=
              st.chat_history ++ [⟨Role.user, input, none, false⟩] }
        rw [heq] at hch
        dsimp only at hch
        rw [hch]
        simp only [List.length_append, List.length_cons, List.length_nil]
        omega
      · next mdl st2 heq =>
        have hch := get_next_chat_history_eq
          { st with chat_history :=
              st.chat_history ++ [⟨Role.user, input, none, false⟩] }
        rw [heq] at hch
        dsimp only at hch
        have hsend := send_chat_history_eq st2 now o mdl input DEFAULT_TEMPERATURE
        split
        · dsimp only
          rw [List.length_append, hsend, hch]
          simp only [List.length_append, List.length_cons, List.length_nil]
          omega
        · dsimp only
          rw [List.length_append, hsend, hch]
          simp only [List.length_append, List.length_cons, List.length_nil]
          omega

end QuickVibe
